import Mathlib

/-!
Verification development for the mock-generator core of
`github.com/cv21/gen-generator-mock` (`generator/mock.go`).

The generator consumes an interface descriptor (go-astra `types.Function`
values) plus decoded `generatorParams` and emits one Go source unit: a mock
struct declaration embedding `mock.Mock` followed by one method per interface
method.  The embedding below renders the emitted unit as a structural AST
(`Decl`, `Stmt`, `Extraction`), one constructor per statement shape the jennifer
builder calls in `generateMethod` produce.  Type rendering (`pkg.TypeQual`,
which only affects how a `GoType` is printed, not which statements are emitted)
is abstracted by storing the structural `GoType` in the AST.
-/

namespace GenMock

/-- Structural Go type descriptors, following the go-astra `types.Type`
variants the generator consumes. -/
inductive GoType where
  | named (pkgPath : String) (ident : String)
  | pointer (inner : GoType)
  | slice (inner : GoType)
  | array (len : Nat) (inner : GoType)
  | map (key : GoType) (value : GoType)
  | chan (inner : GoType)
  | func (params : List GoType) (results : List GoType)
  | iface
  | builtin (ident : String)

/-- Modelled from the spec: `pkg.IsErrorType` (external collaborator, not under
`src/`).  ErrorKind holds exactly when the type denotes the conventional
error-signaling type. -/
def IsErrorType : GoType → Bool
  | .builtin id => id == "error"
  | _ => false

/-- Modelled from the spec: `pkg.IsNillableType` (external collaborator, not
under `src/`).  Nillable shapes are pointer, slice, map, channel, interface and
function types. -/
def IsNillableType : GoType → Bool
  | .pointer _ => true
  | .slice _ => true
  | .map _ _ => true
  | .chan _ => true
  | .iface => true
  | .func _ _ => true
  | _ => false

/-- Model of Go `fmt.Sprintf` restricted to `%s` and literal `%%` verbs, the
only verbs the generator's templates use.  Successive `%s` verbs consume
successive arguments; a missing argument renders Go's `%!s(MISSING)` marker and
leftover arguments render the `%!(EXTRA ...)` suffix. -/
def sprintfAux : List Char → List String → List Char
  | [], [] => []
  | [], a :: as =>
      ("%!(EXTRA " ++ String.intercalate ", " ((a :: as).map (fun x => "string=" ++ x))
        ++ ")").data
  | '%' :: 's' :: rest, a :: as => a.data ++ sprintfAux rest as
  | '%' :: 's' :: rest, [] => "%!s(MISSING)".data ++ sprintfAux rest []
  | '%' :: '%' :: rest, as => '%' :: sprintfAux rest as
  | c :: rest, as => c :: sprintfAux rest as

/-- Go `fmt.Sprintf` on a template and string arguments (see `sprintfAux`). -/
def sprintf (template : String) (args : List String) : String :=
  ⟨sprintfAux template.data args⟩

/-- Model of the external `strcase.ToSnake` on the camel-case identifiers the
generator receives: every uppercase letter after the first character gets a
preceding underscore, and all letters are lowercased. -/
def toSnakeAux : List Char → List Char
  | [] => []
  | c :: rest => (if c.isUpper then ['_', c.toLower] else [c]) ++ toSnakeAux rest

/-- Snake-case conversion of an identifier (see `toSnakeAux`). -/
def toSnake (s : String) : String :=
  match s.data with
  | [] => ""
  | c :: rest => ⟨c.toLower :: toSnakeAux rest⟩

/-- The package holding the embedded call-recording capability
(`mockPackage` in `mock.go`). -/
def mockPackage : String := "github.com/stretchr/testify/mock"

/-- Lean rendition of `buildMockStructName` (`mock.go`): an empty template
defaults to `"%sMock"`, then the interface name is substituted. -/
def buildMockStructName (template : String) (interfaceName : String) : String :=
  let t := if template = "" then "%sMock" else template
  sprintf t [interfaceName]

example : buildMockStructName "" "StringService" = "StringServiceMock" := by decide
example : toSnake "StringService" = "string_service" := by decide

/-- A named, typed parameter or result (go-astra `types.Variable`). -/
structure Variable where
  name : String
  type : GoType

/-- An interface method descriptor (go-astra `types.Function`): name, ordered
arguments, ordered results. -/
structure Function where
  name : String
  args : List Variable
  results : List Variable

/-- An interface descriptor: name plus ordered methods. -/
structure Interface where
  name : String
  methods : List Function

/-- The parsed source file handed to the generator: the interfaces it
declares (the part of go-astra `types.File` the generator consults). -/
structure GoFile where
  interfaces : List Interface

/-- Decoded `generatorParams` (`mock.go`). -/
structure GeneratorParams where
  interfaceName : String
  outPathTemplate : String
  sourcePackagePath : String
  targetPackagePath : String
  mockStructNameTemplate : String

/-- The classified static extraction emitted in the else-branch of the
override check, mirroring the if/else chain of `generateMethod`:
`r0 = ret.Error(i)`, or `if ret.Get(i) != nil then r0 = ret.Get(i).(T)`, or
`r0 = ret.Get(i).(T)`. -/
inductive Extraction where
  | errorSlot (i : Nat)
  | guardedCast (i : Nat) (t : GoType)
  | unguardedCast (i : Nat) (t : GoType)

/-- Statements of a generated method body, one constructor per statement shape
`generateMethod` emits: `ret := _m.Called(args...)`; `var name T`;
`if rf, ok := ret.Get(i).(func(paramTypes...) T); ok then name = rf(callArgs...)
else <elseBranch>`; `return names...`. -/
inductive Stmt where
  | callRecord (args : List String)
  | varDecl (name : String) (t : GoType)
  | ifOverride (name : String) (funcType : GoType) (callArgs : List String)
      (elseBranch : Extraction)
  | returnStmt (names : List String)

/-- The positional extraction-variable name `r0, r1, ...`
(`fmt.Sprintf("r%d", i)` in `generateMethod`). -/
def retName (i : Nat) : String := "r" ++ toString i

/-- Does the extraction read the generic value slot `ret.Get(i)`
(as opposed to the typed error slot `ret.Error(i)`)? -/
def Extraction.usesValueSlot : Extraction → Bool
  | .errorSlot _ => false
  | .guardedCast _ _ => true
  | .unguardedCast _ _ => true

/-- Is the extraction's dynamic conversion guarded by a presence (non-nil)
check on the stored value? -/
def Extraction.guarded : Extraction → Bool
  | .errorSlot _ => false
  | .guardedCast _ _ => true
  | .unguardedCast _ _ => false

/-- The classified extraction for result position `i` of type `t`: the
if/else chain in the else-branch of the override check in `generateMethod`
(error slot first, then nillable-guarded cast, else unguarded cast). -/
def classify (i : Nat) (t : GoType) : Extraction :=
  if IsErrorType t then .errorSlot i
  else if IsNillableType t then .guardedCast i t
  else .unguardedCast i t

/-- The statements the result loop of `generateMethod` emits, starting at
result position `i`: per result, the `var rI T` declaration followed by the
override check whose else-branch holds the classified extraction. -/
def resultLoop (args : List Variable) (i : Nat) : List Variable → List Stmt
  | [] => []
  | r :: rest =>
      .varDecl (retName i) r.type ::
      .ifOverride (retName i) (.func (args.map Variable.type) [r.type])
        (args.map Variable.name) (classify i r.type) ::
      resultLoop args (i + 1) rest

/-- The accumulated `retNames` of the result loop, starting at position `i`. -/
def retNamesLoop (i : Nat) : List Variable → List String
  | [] => []
  | _ :: rest => retName i :: retNamesLoop (i + 1) rest

/-- A generated method declaration: doc comment, receiver, name, parameter and
result lists (descriptor `Variable`s, names preserved), body. -/
structure MethodDecl where
  comment : String
  receiver : String
  name : String
  params : List Variable
  results : List Variable
  body : List Stmt

/-- A generated mock-struct type declaration: doc comment, name, embedded
fields as (package, identifier) pairs. -/
structure TypeDecl where
  comment : String
  name : String
  embedded : List (String × String)

/-- A top-level declaration of the emitted unit. -/
inductive Decl where
  | typeDecl (d : TypeDecl)
  | methodDecl (d : MethodDecl)

/-- Lean rendition of `generateMethod` (`mock.go`).  The source also threads
`generatorParams` through to `typeQual` for type rendering; the embedding
stores structural `GoType`s instead, so the parameter is not needed here. -/
def generateMethod (interfaceName : String) (mockStructName : String)
    (method : Function) : MethodDecl :=
  { comment := sprintf "%s provides a mock function for method %s of interface %s."
      [method.name, method.name, interfaceName]
  , receiver := "*" ++ mockStructName
  , name := method.name
  , params := method.args
  , results := method.results
  , body := .callRecord (method.args.map Variable.name) ::
      (resultLoop method.args 0 method.results ++
        [.returnStmt (retNamesLoop 0 method.results)]) }

/-- Lean rendition of `generateType` (`mock.go`): the documented type
declaration embedding `mock.Mock`. -/
def generateType (mockStructName : String) (interfaceName : String) : TypeDecl :=
  { comment := sprintf "%s is an autogenerated mock type for the %s interface."
      [mockStructName, interfaceName]
  , name := mockStructName
  , embedded := [(mockPackage, "Mock")] }

/-- Modelled from the spec: `pkg.FindInterface` (external collaborator, not
under `src/`) looks the named interface up in the supplied file, returning
nothing when no interface with that name is declared. -/
def FindInterface (f : GoFile) (name : String) : Option Interface :=
  f.interfaces.find? (fun i => i.name == name)

/-- Abnormal terminations of `Generate`.  `nilDereference` models the Go
runtime panic raised at `iface.Name` (`mock.go`) when `FindInterface` returned
nil: the source dereferences the lookup result unconditionally, with no
not-found check and no error return for that case, so a missing interface
crashes the generator rather than yielding a reported typed error. -/
inductive GenError where
  | nilDereference

/-- One emitted `(path, content)` pair (`pkg.GenerateResultFile`); the content
is kept structural, since serialization of the declaration list to bytes is the
deterministic external rendering step. -/
structure GenerateResultFile where
  path : String
  content : List Decl

/-- The generation result (`pkg.GenerateResult`): the ordered output files. -/
structure GenerateResult where
  files : List GenerateResultFile

/-- Lean rendition of `Generate` (`mock.go`).  Parameter decoding
(`json.Unmarshal`) happens before this core, so params arrive decoded.  The
source never tests the `FindInterface` result: it dereferences `iface.Name`
unconditionally, so when the lookup comes back empty the fallible dereference
is the nil-pointer panic modelled by `GenError.nilDereference` (a crash, not a
reported not-found error). -/
def Generate (params : GeneratorParams) (file : GoFile) :
    Except GenError GenerateResult :=
  match FindInterface file params.interfaceName with
  | none => .error .nilDereference
  | some iface =>
      let mockStructName := buildMockStructName params.mockStructNameTemplate iface.name
      .ok { files := [
        { path := sprintf params.outPathTemplate [toSnake iface.name]
        , content := .typeDecl (generateType mockStructName iface.name) ::
            iface.methods.map (fun m =>
              .methodDecl (generateMethod iface.name mockStructName m)) } ] }

/-- The extraction-variable names a statement list declares (the `var rI T`
declarations, in emission order). -/
def declaredVarNames : List Stmt → List String
  | [] => []
  | .varDecl n _ :: rest => n :: declaredVarNames rest
  | .callRecord _ :: rest => declaredVarNames rest
  | .ifOverride _ _ _ _ :: rest => declaredVarNames rest
  | .returnStmt _ :: rest => declaredVarNames rest

theorem declaredVarNames_append (l₁ l₂ : List Stmt) :
    declaredVarNames (l₁ ++ l₂) = declaredVarNames l₁ ++ declaredVarNames l₂ := by
  induction l₁ with
  | nil => simp [declaredVarNames]
  | cons s rest ih => cases s <;> simp [declaredVarNames, ih]

theorem declaredVarNames_resultLoop (args : List Variable) (i : Nat)
    (rs : List Variable) :
    declaredVarNames (resultLoop args i rs) = retNamesLoop i rs := by
  induction rs generalizing i with
  | nil => simp [resultLoop, retNamesLoop, declaredVarNames]
  | cons r rest ih => simp [resultLoop, retNamesLoop, declaredVarNames, ih]

theorem declaredVarNames_generateMethod (ifn mn : String) (m : Function) :
    declaredVarNames (generateMethod ifn mn m).body = retNamesLoop 0 m.results := by
  simp [generateMethod, declaredVarNames, declaredVarNames_append,
    declaredVarNames_resultLoop]

theorem retNamesLoop_eq_range (i : Nat) (rs : List Variable) :
    retNamesLoop i rs = (List.range rs.length).map (fun j => retName (i + j)) := by
  induction rs generalizing i with
  | nil => simp [retNamesLoop]
  | cons r rest ih =>
      rw [retNamesLoop, ih (i + 1), List.length_cons, List.range_succ_eq_map,
        List.map_cons, List.map_map]
      refine congrArg₂ List.cons (by rw [Nat.add_zero]) ?_
      refine List.map_congr_left (fun j _ => ?_)
      show retName (i + 1 + j) = retName (i + (j + 1))
      have e : i + 1 + j = i + (j + 1) := by omega
      rw [e]

theorem mem_retNamesLoop (n : String) (i : Nat) (rs : List Variable)
    (hn : n ∈ retNamesLoop i rs) : ∃ j, j < rs.length ∧ n = retName (i + j) := by
  induction rs generalizing i with
  | nil => simp [retNamesLoop] at hn
  | cons r rest ih =>
      rw [retNamesLoop, List.mem_cons] at hn
      rcases hn with hn | hn
      · exact ⟨0, by simp, by simpa using hn⟩
      · obtain ⟨j, hj, hje⟩ := ih (i + 1) hn
        have e : i + 1 + j = i + (j + 1) := by omega
        rw [e] at hje
        exact ⟨j + 1, by simpa using hj, hje⟩

theorem resultLoop_split (args : List Variable) :
    ∀ (rs : List Variable) (i j : Nat) (h : j < rs.length),
      ∃ pre post, resultLoop args i rs =
        pre ++
        (Stmt.varDecl (retName (i + j)) (rs.get ⟨j, h⟩).type ::
         Stmt.ifOverride (retName (i + j))
           (GoType.func (args.map Variable.type) [(rs.get ⟨j, h⟩).type])
           (args.map Variable.name) (classify (i + j) (rs.get ⟨j, h⟩).type) ::
         post)
  | [], _, j, h => absurd h (by simp)
  | r :: rest, i, 0, h =>
      ⟨[], resultLoop args (i + 1) rest, by simp [resultLoop]⟩
  | r :: rest, i, j + 1, h => by
      obtain ⟨pre, post, hsplit⟩ :=
        resultLoop_split args rest (i + 1) j (Nat.lt_of_succ_lt_succ h)
      refine ⟨Stmt.varDecl (retName i) r.type ::
        Stmt.ifOverride (retName i) (GoType.func (args.map Variable.type) [r.type])
          (args.map Variable.name) (classify i r.type) :: pre, post, ?_⟩
      have e : i + 1 + j = i + (j + 1) := by omega
      rw [e] at hsplit
      simp only [resultLoop, List.cons_append]
      exact congrArg₂ List.cons rfl (congrArg₂ List.cons rfl hsplit)

/-- The per-result block of `generateMethod`: for every result position `i`,
the body contains the `var rI` declaration followed by the override check whose
else-branch is the classified extraction. -/
theorem generateMethod_block (ifn mn : String) (m : Function) (i : Nat)
    (h : i < m.results.length) :
    ∃ pre post, (generateMethod ifn mn m).body =
      pre ++
      (Stmt.varDecl (retName i) (m.results.get ⟨i, h⟩).type ::
       Stmt.ifOverride (retName i)
         (GoType.func (m.args.map Variable.type) [(m.results.get ⟨i, h⟩).type])
         (m.args.map Variable.name) (classify i (m.results.get ⟨i, h⟩).type) ::
       post) := by
  obtain ⟨pre, post, hsplit⟩ := resultLoop_split m.args m.results 0 i h
  refine ⟨Stmt.callRecord (m.args.map Variable.name) :: pre,
    post ++ [Stmt.returnStmt (retNamesLoop 0 m.results)], ?_⟩
  simp only [generateMethod, hsplit, Nat.zero_add, List.cons_append,
    List.append_assoc]

/-- The `Concat` method of the spec's end-to-end example:
`Concat(a string, b string) string`. -/
def concatMethod : Function :=
  { name := "Concat"
  , args := [ { name := "a", type := GoType.builtin "string" }
            , { name := "b", type := GoType.builtin "string" } ]
  , results := [ { name := "", type := GoType.builtin "string" } ] }

/-- A method with a single error-kind result: `Close() error`. -/
def closeMethod : Function :=
  { name := "Close"
  , args := []
  , results := [ { name := "", type := GoType.builtin "error" } ] }

/-- A method with a pointer-typed (nillable) result:
`GetUser(id int64) *user.User`. -/
def getUserMethod : Function :=
  { name := "GetUser"
  , args := [ { name := "id", type := GoType.builtin "int64" } ]
  , results := [ { name := ""
                 , type := GoType.pointer (GoType.named "example.com/user" "User") } ] }

/-- A method with no results: `Reset(a string)`. -/
def resetMethod : Function :=
  { name := "Reset"
  , args := [ { name := "a", type := GoType.builtin "string" } ]
  , results := [] }

/-- C1: for every method and every result position `i`, the generated body
holds, for that result, the `var rI` declaration followed by the override
check: the stored stand-in at position `i` is asserted against the function
type whose parameters are the method's parameter types and whose single result
is this result's type, and on success that function is invoked with the actual
call arguments; the classified extraction sits only in the else-branch.  Each
result position gets its own independent block, so one method may mix
overridden and non-overridden results. -/
theorem override_precedes_classified (ifn mn : String) (m : Function) (i : Nat)
    (h : i < m.results.length) :
    ∃ pre post, (generateMethod ifn mn m).body =
      pre ++
      (Stmt.varDecl (retName i) (m.results.get ⟨i, h⟩).type ::
       Stmt.ifOverride (retName i)
         (GoType.func (m.args.map Variable.type) [(m.results.get ⟨i, h⟩).type])
         (m.args.map Variable.name) (classify i (m.results.get ⟨i, h⟩).type) ::
       post) :=
  generateMethod_block ifn mn m i h

/-- Witness for C1 at the spec's `Concat(a string, b string) string` example. -/
theorem override_precedes_classified_witness :
    ∃ pre post,
      (generateMethod "StringService" "StringServiceMock" concatMethod).body =
        pre ++
        (Stmt.varDecl (retName 0) (concatMethod.results.get ⟨0, by decide⟩).type ::
         Stmt.ifOverride (retName 0)
           (GoType.func (concatMethod.args.map Variable.type)
             [(concatMethod.results.get ⟨0, by decide⟩).type])
           (concatMethod.args.map Variable.name)
           (classify 0 (concatMethod.results.get ⟨0, by decide⟩).type) ::
         post) :=
  override_precedes_classified "StringService" "StringServiceMock" concatMethod 0
    (by decide)

/-- C2: for a method with a single error-kind result, the whole generated body
is the call record, the `var r0` declaration, the override check whose
else-branch is the error-slot extraction `r0 = ret.Error(0)`, and the return;
the error-slot extraction never reads the generic value slot `ret.Get`. -/
theorem single_error_result_uses_error_slot (ifn mn : String) (m : Function)
    (r : Variable) (hres : m.results = [r])
    (herr : IsErrorType r.type = true) :
    (generateMethod ifn mn m).body =
      [ Stmt.callRecord (m.args.map Variable.name)
      , Stmt.varDecl (retName 0) r.type
      , Stmt.ifOverride (retName 0)
          (GoType.func (m.args.map Variable.type) [r.type])
          (m.args.map Variable.name) (Extraction.errorSlot 0)
      , Stmt.returnStmt [retName 0] ] ∧
    Extraction.usesValueSlot (Extraction.errorSlot 0) = false := by
  refine ⟨?_, rfl⟩
  simp [generateMethod, hres, resultLoop, retNamesLoop, classify, herr]

/-- Witness for C2 at `Close() error`. -/
theorem single_error_result_uses_error_slot_witness :
    (generateMethod "Closer" "CloserMock" closeMethod).body =
      [ Stmt.callRecord (closeMethod.args.map Variable.name)
      , Stmt.varDecl (retName 0) (GoType.builtin "error")
      , Stmt.ifOverride (retName 0)
          (GoType.func (closeMethod.args.map Variable.type) [GoType.builtin "error"])
          (closeMethod.args.map Variable.name) (Extraction.errorSlot 0)
      , Stmt.returnStmt [retName 0] ] ∧
    Extraction.usesValueSlot (Extraction.errorSlot 0) = false :=
  single_error_result_uses_error_slot "Closer" "CloserMock" closeMethod
    { name := "", type := GoType.builtin "error" } rfl rfl

/-- C3: for a non-error-kind result, the classified extraction (the
else-branch of that result's override check in the generated body) is the
presence-guarded cast exactly when the type is nillable, and the unguarded
cast otherwise. -/
theorem nillable_guard_policy (ifn mn : String) (m : Function) (i : Nat)
    (h : i < m.results.length)
    (hne : IsErrorType (m.results.get ⟨i, h⟩).type = false) :
    (∃ pre post, (generateMethod ifn mn m).body =
      pre ++
      (Stmt.varDecl (retName i) (m.results.get ⟨i, h⟩).type ::
       Stmt.ifOverride (retName i)
         (GoType.func (m.args.map Variable.type) [(m.results.get ⟨i, h⟩).type])
         (m.args.map Variable.name) (classify i (m.results.get ⟨i, h⟩).type) ::
       post)) ∧
    (IsNillableType (m.results.get ⟨i, h⟩).type = true →
      classify i (m.results.get ⟨i, h⟩).type =
        Extraction.guardedCast i (m.results.get ⟨i, h⟩).type ∧
      Extraction.guarded (classify i (m.results.get ⟨i, h⟩).type) = true) ∧
    (IsNillableType (m.results.get ⟨i, h⟩).type = false →
      classify i (m.results.get ⟨i, h⟩).type =
        Extraction.unguardedCast i (m.results.get ⟨i, h⟩).type ∧
      Extraction.guarded (classify i (m.results.get ⟨i, h⟩).type) = false) := by
  refine ⟨generateMethod_block ifn mn m i h, ?_, ?_⟩
  · intro hb
    simp only [List.get_eq_getElem] at hne hb
    constructor <;> simp [classify, hne, hb, Extraction.guarded]
  · intro hb
    simp only [List.get_eq_getElem] at hne hb
    constructor <;> simp [classify, hne, hb, Extraction.guarded]

/-- Witness for C3 at `GetUser(id int64) *user.User` (nillable branch). -/
theorem nillable_guard_policy_witness :
    (∃ pre post,
      (generateMethod "UserService" "UserServiceMock" getUserMethod).body =
        pre ++
        (Stmt.varDecl (retName 0) (getUserMethod.results.get ⟨0, by decide⟩).type ::
         Stmt.ifOverride (retName 0)
           (GoType.func (getUserMethod.args.map Variable.type)
             [(getUserMethod.results.get ⟨0, by decide⟩).type])
           (getUserMethod.args.map Variable.name)
           (classify 0 (getUserMethod.results.get ⟨0, by decide⟩).type) ::
         post)) ∧
    (IsNillableType (getUserMethod.results.get ⟨0, by decide⟩).type = true →
      classify 0 (getUserMethod.results.get ⟨0, by decide⟩).type =
        Extraction.guardedCast 0 (getUserMethod.results.get ⟨0, by decide⟩).type ∧
      Extraction.guarded (classify 0 (getUserMethod.results.get ⟨0, by decide⟩).type) = true) ∧
    (IsNillableType (getUserMethod.results.get ⟨0, by decide⟩).type = false →
      classify 0 (getUserMethod.results.get ⟨0, by decide⟩).type =
        Extraction.unguardedCast 0 (getUserMethod.results.get ⟨0, by decide⟩).type ∧
      Extraction.guarded (classify 0 (getUserMethod.results.get ⟨0, by decide⟩).type) = false) :=
  nillable_guard_policy "UserService" "UserServiceMock" getUserMethod 0
    (by decide) rfl

/-- C10: for a method with no results, the generated body is exactly the
call-recording statement over all arguments in order followed by the empty
return: no variable declarations, no override checks, no extractions. -/
theorem empty_results_body (ifn mn : String) (m : Function)
    (h : m.results = []) :
    (generateMethod ifn mn m).body =
      [Stmt.callRecord (m.args.map Variable.name), Stmt.returnStmt []] := by
  simp [generateMethod, h, resultLoop, retNamesLoop]

/-- Witness for C10 at `Reset(a string)`. -/
theorem empty_results_body_witness :
    (generateMethod "StringService" "StringServiceMock" resetMethod).body =
      [Stmt.callRecord (resetMethod.args.map Variable.name), Stmt.returnStmt []] :=
  empty_results_body "StringService" "StringServiceMock" resetMethod rfl

/-- Decoded parameters of the spec's examples. -/
def defaultParams : GeneratorParams :=
  { interfaceName := "StringService"
  , outPathTemplate := "./generated/%s_mock.go"
  , sourcePackagePath := "example.com/stringsvc"
  , targetPackagePath := "example.com/stringsvc"
  , mockStructNameTemplate := "" }

/-- The spec's end-to-end example interface: `StringService` with the single
method `Concat`. -/
def stringSvcIface : Interface :=
  { name := "StringService", methods := [concatMethod] }

/-- A source file declaring only `stringSvcIface`. -/
def stringSvcFile : GoFile :=
  { interfaces := [stringSvcIface] }

/-- C4 (code bug): `Generate` has no not-found handling — the source
dereferences the `FindInterface` result unconditionally — so asked for
`StringService` in a file declaring no interfaces it crashes with the modelled
nil-pointer panic instead of reporting the spec's `InterfaceNotFoundError`. -/
theorem interface_not_found_crashes :
    Generate defaultParams { interfaces := [] } =
      Except.error GenError.nilDereference := rfl

/-- C5: on success the emitted unit is exactly the mock type declaration
(embedding exactly one instance of the call-recording capability) followed by
one method declaration per descriptor method, in original order, with no
reordering and no deduplication; with zero methods the unit is the type
declaration alone. -/
theorem emitted_unit_structure (params : GeneratorParams) (file : GoFile)
    (iface : Interface)
    (h : FindInterface file params.interfaceName = some iface) :
    Generate params file = Except.ok
      { files := [
        { path := sprintf params.outPathTemplate [toSnake iface.name]
        , content :=
            Decl.typeDecl (generateType
              (buildMockStructName params.mockStructNameTemplate iface.name)
              iface.name) ::
            iface.methods.map (fun m => Decl.methodDecl
              (generateMethod iface.name
                (buildMockStructName params.mockStructNameTemplate iface.name) m)) } ] } ∧
    (generateType (buildMockStructName params.mockStructNameTemplate iface.name)
      iface.name).embedded = [(mockPackage, "Mock")] ∧
    (iface.methods = [] → Generate params file = Except.ok
      { files := [
        { path := sprintf params.outPathTemplate [toSnake iface.name]
        , content := [Decl.typeDecl (generateType
            (buildMockStructName params.mockStructNameTemplate iface.name)
            iface.name)] } ] }) := by
  refine ⟨?_, rfl, ?_⟩
  · simp [Generate, h]
  · intro hm
    simp [Generate, h, hm]

/-- Witness for C5 at the `StringService` example. -/
theorem emitted_unit_structure_witness :
    Generate defaultParams stringSvcFile = Except.ok
      { files := [
        { path := sprintf defaultParams.outPathTemplate [toSnake stringSvcIface.name]
        , content :=
            Decl.typeDecl (generateType
              (buildMockStructName defaultParams.mockStructNameTemplate stringSvcIface.name)
              stringSvcIface.name) ::
            stringSvcIface.methods.map (fun m => Decl.methodDecl
              (generateMethod stringSvcIface.name
                (buildMockStructName defaultParams.mockStructNameTemplate stringSvcIface.name)
                m)) } ] } ∧
    (generateType (buildMockStructName defaultParams.mockStructNameTemplate stringSvcIface.name)
      stringSvcIface.name).embedded = [(mockPackage, "Mock")] ∧
    (stringSvcIface.methods = [] → Generate defaultParams stringSvcFile = Except.ok
      { files := [
        { path := sprintf defaultParams.outPathTemplate [toSnake stringSvcIface.name]
        , content := [Decl.typeDecl (generateType
            (buildMockStructName defaultParams.mockStructNameTemplate stringSvcIface.name)
            stringSvcIface.name)] } ] }) :=
  emitted_unit_structure defaultParams stringSvcFile stringSvcIface rfl

/-- C6: generation is deterministic — two invocations with identical
`(descriptor, params)` inputs produce identical results, hence byte-identical
serialized output (serialization being a function of the result). -/
theorem generate_deterministic (p₁ p₂ : GeneratorParams) (f₁ f₂ : GoFile)
    (hp : p₁ = p₂) (hf : f₁ = f₂) :
    Generate p₁ f₁ = Generate p₂ f₂ := by
  subst hp
  subst hf
  rfl

/-- Witness for C6 at the `StringService` example. -/
theorem generate_deterministic_witness :
    Generate defaultParams stringSvcFile = Generate defaultParams stringSvcFile :=
  generate_deterministic defaultParams defaultParams stringSvcFile stringSvcFile
    rfl rfl

/-- C7: the mock type identifier is the template applied to the interface
name, an empty template defaulting to `"%sMock"`; with the spec's two
examples. -/
theorem mock_struct_name_formula :
    (∀ template interfaceName : String,
      buildMockStructName template interfaceName =
        sprintf (if template = "" then "%sMock" else template) [interfaceName]) ∧
    buildMockStructName "" "StringService" = "StringServiceMock" ∧
    buildMockStructName "My%sDouble" "Foo" = "MyFooDouble" :=
  ⟨fun _ _ => rfl, by decide, by decide⟩

/-- C8: on success `Generate` produces exactly one `(path, content)` pair, the
path being the output template applied to the snake-cased interface name; with
the spec's path example. -/
theorem single_output_path (params : GeneratorParams) (file : GoFile)
    (iface : Interface)
    (h : FindInterface file params.interfaceName = some iface) :
    (Generate params file).map (fun res => res.files.map GenerateResultFile.path) =
      Except.ok [sprintf params.outPathTemplate [toSnake iface.name]] ∧
    (Generate params file).map (fun res => res.files.length) = Except.ok 1 ∧
    sprintf "./generated/%s_mock.go" [toSnake "StringService"] =
      "./generated/string_service_mock.go" := by
  refine ⟨?_, ?_, by decide⟩ <;> simp [Generate, h, Except.map]

/-- Witness for C8 at the `StringService` example. -/
theorem single_output_path_witness :
    (Generate defaultParams stringSvcFile).map
      (fun res => res.files.map GenerateResultFile.path) =
      Except.ok [sprintf defaultParams.outPathTemplate [toSnake stringSvcIface.name]] ∧
    (Generate defaultParams stringSvcFile).map (fun res => res.files.length) =
      Except.ok 1 ∧
    sprintf "./generated/%s_mock.go" [toSnake "StringService"] =
      "./generated/string_service_mock.go" :=
  single_output_path defaultParams stringSvcFile stringSvcIface rfl

/-- A method descriptor whose argument is literally named `r0`, clashing with
the positional extraction variable of the first result. -/
def collideMethod : Function :=
  { name := "Weird"
  , args := [ { name := "r0", type := GoType.builtin "string" } ]
  , results := [ { name := "", type := GoType.builtin "string" } ] }

/-- Counterexample to C9 as stated: positional extraction names do not
guarantee collision-freedom for every method descriptor — for the method
`Weird(r0 string) string` the generated body declares extraction variable
`r0`, which is also an argument name. -/
theorem result_naming_collision_counterexample :
    ¬ ∀ (ifn mn : String) (m : Function),
        ∀ n ∈ declaredVarNames (generateMethod ifn mn m).body,
          n ∉ m.args.map Variable.name := by
  intro hall
  exact hall "I" "IMock" collideMethod "r0" (by decide) (by decide)

/-- C9 amended: the generated signature preserves each result's descriptor
name, the extraction variables are exactly the positional names `r0, r1, ...`,
and they collide with no argument name provided no argument is itself named
`rI` for a result position `I` (an argument literally named `r0` does collide,
as the counterexample shows). -/
theorem result_naming_amended (ifn mn : String) (m : Function)
    (h : ∀ a ∈ m.args, ∀ i, i < m.results.length → a.name ≠ retName i) :
    (generateMethod ifn mn m).results = m.results ∧
    declaredVarNames (generateMethod ifn mn m).body =
      (List.range m.results.length).map retName ∧
    ∀ n ∈ declaredVarNames (generateMethod ifn mn m).body,
      n ∉ m.args.map Variable.name := by
  refine ⟨rfl, ?_, ?_⟩
  · rw [declaredVarNames_generateMethod, retNamesLoop_eq_range]
    simp
  · intro n hn hmem
    rw [declaredVarNames_generateMethod] at hn
    obtain ⟨j, hj, rfl⟩ := mem_retNamesLoop n 0 m.results hn
    obtain ⟨a, ha, hname⟩ := List.mem_map.mp hmem
    exact h a ha j hj (by simpa using hname)

/-- Witness for the amended C9 at `Concat(a string, b string) string`. -/
theorem result_naming_amended_witness :
    (generateMethod "StringService" "StringServiceMock" concatMethod).results =
      concatMethod.results ∧
    declaredVarNames
      (generateMethod "StringService" "StringServiceMock" concatMethod).body =
      (List.range concatMethod.results.length).map retName ∧
    ∀ n ∈ declaredVarNames
        (generateMethod "StringService" "StringServiceMock" concatMethod).body,
      n ∉ concatMethod.args.map Variable.name :=
  result_naming_amended "StringService" "StringServiceMock" concatMethod
    (by decide)

end GenMock
